import Mathlib

/-!
Shallow embedding of `py_ncdiff.py` (class `netCDF_comp_class` and its four
comparison stages, plus the diagnostic diff routines and `parse_results`).

Modelling choices, kept close to the source:
* A netCDF variable is a record `Var` of dtype (a string tag), ordered
  dimension names, ordered shape, attribute mapping, and flattened data.
* A data element is `Option ℚ`: `none` models a NaN/missing position and
  `some q` an ordinary numeric value. Exact rational values stand in for
  floats; every claim below is about masks, equality and the structure of
  the reported quantities, not float rounding.
* A `Dataset` is the post-load view: an association list of named variables
  (`xr.open_dataset` + `.variables.keys()`); python-dict invariants
  (no duplicate keys) are carried as explicit `WF` hypotheses.
* The mutable object state (`self.common_vars`, `self.test_results`) is the
  record `CompState`, and each `compare_*` method is a `CompState → CompState`
  function.  Python's `list.remove` is `List.erase`, and the `set(..) & set(..)`
  intersection is represented by the baseline-ordered filter (claims about it
  are stated via membership and length, which are order-insensitive).
-/

namespace PyNcdiff

/-- One netCDF variable as seen through xarray: dtype, named dims, shape,
attribute mapping, flattened data (`none` = NaN/missing). -/
structure Var where
  dtype : String
  dims : List String
  shape : List Nat
  attrs : List (String × String)
  data : List (Option ℚ)
deriving DecidableEq

instance : Inhabited Var := ⟨⟨"", [], [], [], []⟩⟩

/-- xarray's `.size`: total element count, the product of the shape. -/
def Var.size (v : Var) : Nat := v.shape.prod

/-- xarray's `.ndim`: the number of dimensions. -/
def Var.ndim (v : Var) : Nat := v.dims.length

/-- A loaded dataset: named variables in file order (`self.baseline['ds']`
together with the cached `self.baseline['vars']` key list). -/
structure Dataset where
  vars : List (String × Var)
deriving DecidableEq

/-- `self.baseline['vars']`: the variable-name list. -/
def Dataset.varNames (d : Dataset) : List String := d.vars.map Prod.fst

/-- `ds[var]`: variable lookup.  The pipeline only looks up names it has
confirmed present; a missing name yields the (empty) default record. -/
def Dataset.getVar (d : Dataset) (name : String) : Var :=
  (d.vars.lookup name).getD default

/-- Python-dict/netCDF invariants of one variable: unique dimension names,
unique attribute keys, `len(dims) == len(shape)`. -/
def Var.WF (v : Var) : Prop :=
  v.dims.Nodup ∧ (v.attrs.map Prod.fst).Nodup ∧ v.dims.length = v.shape.length

/-- Dataset invariants: unique variable names, each variable well-formed. -/
def Dataset.WF (d : Dataset) : Prop :=
  d.varNames.Nodup ∧ ∀ p ∈ d.vars, Var.WF p.2

/-- One entry of `self.test_results`: the `"pass"` flag, the `"result"`
message, and the `"fail_msg"` (present only on failure). -/
structure TestResult where
  pass : Bool
  result : String
  fail_msg : Option String
deriving DecidableEq

/-- The comparison object's state after `__init__`: the two datasets, the
quiet flag, `self.common_vars` and the ordered `self.test_results`. -/
structure CompState where
  baseline : Dataset
  new_file : Dataset
  quiet : Bool
  common_vars : List String
  test_results : List (String × TestResult)
deriving DecidableEq

/-- `__init__` after a successful load of both files:
`self.common_vars = list(set(baseline_vars) & set(new_vars))`, no results yet.
(The python set intersection has arbitrary order; we fix baseline order.) -/
def initState (b n : Dataset) (q : Bool) : CompState :=
  { baseline := b, new_file := n, quiet := q,
    common_vars := b.varNames.filter (fun v => v ∈ n.varNames),
    test_results := [] }

/-- `"%d/%d pass" % (s, t)`. -/
def fracMsg (s t : Nat) : String :=
  toString s ++ "/" ++ toString t ++ " pass"

def stage1Desc : String := "Compare Variable Names"
def stage2Desc : String := "Compare Variable Types and Dimensions"
def stage3Desc : String := "Compare Metadata"
def stage4Desc : String := "Compare Values"

/-- `compare_variable_names` (Stage 1).  Skips (no Test Result) when
`self.common_vars` is empty; PASSes when the three lengths agree; otherwise
records a failure whose `fail_msg` is `"<common>/<common+only>" ++ " pass"`. -/
def compare_variable_names (st : CompState) : CompState :=
  if st.common_vars = [] then st
  else if st.baseline.varNames.length = st.new_file.varNames.length ∧
          st.baseline.varNames.length = st.common_vars.length then
    { st with test_results := st.test_results ++
        [(stage1Desc,
          { pass := true,
            result := "Variable list matches -- all variables exist in both files",
            fail_msg := none })] }
  else
    let baseline_only := st.baseline.varNames.filter (fun v => v ∉ st.common_vars)
    let new_file_only := st.new_file.varNames.filter (fun v => v ∉ st.common_vars)
    let success_cnt := st.common_vars.length
    let fail_cnt := baseline_only.length + new_file_only.length
    { st with test_results := st.test_results ++
        [(stage1Desc,
          { pass := false,
            result := "Variable list does not match -- " ++ toString fail_cnt ++
              " variables exist in one file but not the other, only " ++
              toString success_cnt ++ " in both",
            fail_msg := some (fracMsg success_cnt (success_cnt + fail_cnt)) })] }

/-- Python dict equality on an association list (same key set, same value for
every key); faithful to `dict.__eq__` when the key lists are duplicate-free. -/
def dictEq {β : Type} [DecidableEq β] (a b : List (String × β)) : Bool :=
  a.all (fun p => b.lookup p.1 = some p.2) && b.all (fun p => a.lookup p.1 = some p.2)

/-- xarray's `.sizes`: the dimension-name → size mapping of a variable. -/
def Var.sizesMap (v : Var) : List (String × Nat) := v.dims.zip v.shape

/-- The reason Stage 2 disqualifies a variable. -/
inductive TDMismatch
  | dtype
  | ndim
  | sizes
deriving DecidableEq

/-- The `if/elif/elif` chain of `compare_variable_type_and_dims` for one
variable: dtype first, then `ndim`, then the `.sizes` mapping; `none` when the
variable matches.  (The source tests `!=` and falls through; testing `=` and
swapping the branches is the same function.) -/
def tdMismatch (bv nv : Var) : Option TDMismatch :=
  if bv.dtype ≠ nv.dtype then some TDMismatch.dtype
  else if bv.ndim ≠ nv.ndim then some TDMismatch.ndim
  else if dictEq bv.sizesMap nv.sizesMap then none
  else some TDMismatch.sizes

/-- One verbose log line of Stage 2 (the three `logger.info` calls at the
mismatch branches; the size branch logs the two *total* `.size` counts). -/
inductive S2Line
  | dtypeLine (var bt nt : String)
  | ndimLine (var : String) (bd nd : Nat)
  | sizeLine (var : String) (bs ns : Nat)
deriving DecidableEq

/-- The verbose output of Stage 2, one line per mismatching variable. -/
def stage2Log (st : CompState) : List S2Line :=
  st.common_vars.filterMap (fun v =>
    match tdMismatch (st.baseline.getVar v) (st.new_file.getVar v) with
    | some TDMismatch.dtype =>
        some (S2Line.dtypeLine v (st.baseline.getVar v).dtype (st.new_file.getVar v).dtype)
    | some TDMismatch.ndim =>
        some (S2Line.ndimLine v (st.baseline.getVar v).ndim (st.new_file.getVar v).ndim)
    | some TDMismatch.sizes =>
        some (S2Line.sizeLine v (st.baseline.getVar v).size (st.new_file.getVar v).size)
    | none => none)

/-- `compare_variable_type_and_dims` (Stage 2).  Collects `remove_var`, then
removes each collected name from `self.common_vars` (`list.remove` =
`List.erase`); `total_cnt` is taken before removal, exactly as in the source. -/
def compare_variable_type_and_dims (st : CompState) : CompState :=
  if st.common_vars = [] then st
  else
    let remove_var := st.common_vars.filter
      (fun v => (tdMismatch (st.baseline.getVar v) (st.new_file.getVar v)).isSome)
    let total_cnt := st.common_vars.length
    if remove_var = [] then
      { st with test_results := st.test_results ++
          [(stage2Desc,
            { pass := true,
              result := "All " ++ toString total_cnt ++
                " variables that appear in both files have same type / dimension",
              fail_msg := none })] }
    else
      let fail_cnt := remove_var.length
      { st with
        common_vars := remove_var.foldl (fun acc v => acc.erase v) st.common_vars,
        test_results := st.test_results ++
          [(stage2Desc,
            { pass := false,
              result := "Variable types / dimensions do not match -- " ++
                toString fail_cnt ++ " of " ++ toString total_cnt ++
                " variables that appear in both files differ in type or dimension",
              fail_msg := some (fracMsg (total_cnt - fail_cnt) total_cnt) })] }

/-- `compare_metadata` (Stage 3): counts variables whose attribute dicts are
unequal; never touches `self.common_vars`. -/
def compare_metadata (st : CompState) : CompState :=
  if st.common_vars = [] then st
  else
    let fail_cnt := (st.common_vars.filter
      (fun v => ! dictEq (st.baseline.getVar v).attrs (st.new_file.getVar v).attrs)).length
    let var_cnt := st.common_vars.length
    if fail_cnt ≠ 0 then
      { st with test_results := st.test_results ++
          [(stage3Desc,
            { pass := false,
              result := "Metadata does not match -- " ++ toString fail_cnt ++ " of " ++
                toString var_cnt ++ " variables with same type / dimensions differ",
              fail_msg := some (fracMsg (var_cnt - fail_cnt) var_cnt) })] }
    else
      { st with test_results := st.test_results ++
          [(stage3Desc,
            { pass := true,
              result := "All " ++ toString var_cnt ++
                " variables with same type / dimensions have same metadata",
              fail_msg := none })] }

/-- xarray's `DataArray.equals`: same dimensions, same shape, and element-wise
equal values with NaNs in the same positions counting as equal.  In the
`Option ℚ` model the NaN rule is exactly `none = none`, so value equality is
list equality. -/
def varEquals (bv nv : Var) : Bool :=
  decide (bv.dims = nv.dims) && decide (bv.shape = nv.shape) && decide (bv.data = nv.data)

/-- `compare_values` (Stage 4): per-variable pass/fail is
`self.baseline['ds'][var].equals(self.new_file['ds'][var])`; the numeric diff
routine (`get_value_differences`, below) is verbose diagnostics only. -/
def compare_values (st : CompState) : CompState :=
  if st.common_vars = [] then st
  else
    let fail_cnt := (st.common_vars.filter
      (fun v => ! varEquals (st.baseline.getVar v) (st.new_file.getVar v))).length
    let var_cnt := st.common_vars.length
    if fail_cnt ≠ 0 then
      { st with test_results := st.test_results ++
          [(stage4Desc,
            { pass := false,
              result := "Variable values do not match -- " ++ toString fail_cnt ++
                " of " ++ toString var_cnt ++
                " variables with same type / dimensions differ",
              fail_msg := some (fracMsg (var_cnt - fail_cnt) var_cnt) })] }
    else
      { st with test_results := st.test_results ++
          [(stage4Desc,
            { pass := true,
              result := "All " ++ toString var_cnt ++
                " variables with same type / dimensions have same values",
              fail_msg := none })] }

/-- `np.argwhere(np.isnan(xs))`: the increasing list of NaN positions of a
(flattened) array. -/
def nanIdx (xs : List (Option ℚ)) : List Nat :=
  (List.range xs.length).filter (fun i => xs.get? i = some none)

/-- numpy's `np.any(a != b)` on two index-column arrays of shapes `(k1, 1)` and
`(k2, 1)` (the two `argwhere` results), with broadcasting:
equal lengths compare element-wise; a length-1 (or length-0 against length-1)
operand broadcasts; any other length mismatch cannot broadcast and raises
(`none` models the raised `ValueError`). -/
def bcastAnyNe (a b : List Nat) : Option Bool :=
  if a.length = b.length then some (decide (a ≠ b))
  else if a.length = 1 then some (b.any (fun x => decide (x ≠ a.headI)))
  else if b.length = 1 then some (a.any (fun x => decide (x ≠ b.headI)))
  else none

/-- The mask check of `get_value_differences`:
`np.any(np.argwhere(np.isnan(baseline)) != np.argwhere(np.isnan(new)))`;
`some true` means the "Masks are not the same" line is logged. -/
def maskMismatchFlag (bd nd : List (Option ℚ)) : Option Bool :=
  bcastAnyNe (nanIdx bd) (nanIdx nd)

/-- The positions unmasked in *both* arrays, as value pairs (the entries that
survive `np.ma.masked_invalid` on both operands of a masked comparison). -/
def jointPairs (bd nd : List (Option ℚ)) : List (ℚ × ℚ) :=
  (bd.zip nd).filterMap (fun p =>
    match p with
    | (some x, some y) => some (x, y)
    | _ => none)

/-- `np.ma.any(baseline_masked != new_file_masked)`: some jointly-unmasked
pair of values differs. -/
def values_differ (bd nd : List (Option ℚ)) : Bool :=
  (jointPairs bd nd).any (fun p => decide (p.1 ≠ p.2))

/-- `np.max(np.abs(baseline_masked - new_file_masked))`: the largest absolute
difference over jointly-unmasked positions (the source only evaluates it when
`values_differ`, so the list is then nonempty and the `0` base is inert since
all entries are nonnegative). -/
def maxAbsDiff (bd nd : List (Option ℚ)) : ℚ :=
  ((jointPairs bd nd).map (fun p => |p.1 - p.2|)).foldr max 0

/-- `np.ma.any(baseline_masked != 0)`: some unmasked baseline value is
nonzero (masked only by the baseline's own NaNs). -/
def baselineAnyNonzero (bd : List (Option ℚ)) : Bool :=
  bd.any (fun x =>
    match x with
    | some q => decide (q ≠ 0)
    | none => false)

/-- `np.amax(np.abs(baseline_masked))`: the largest absolute unmasked baseline
value. -/
def maxAbsBaseline (bd : List (Option ℚ)) : ℚ :=
  ((bd.filterMap id).map (fun q => |q|)).foldr max 0

/-- What one call of `get_value_differences` reports: whether a "Masks are not
the same" line is printed (`none` = the mask comparison raised), the absolute
and the relative diff lines (absent when not printed). -/
structure ValueDiffReport where
  mask_line : Option Bool
  abs_line : Option ℚ
  rel_line : Option ℚ
deriving DecidableEq

/-- `get_value_differences`: the mask check, then — only when the jointly
unmasked values differ — the max absolute diff, and the max relative diff only
when some unmasked baseline value is nonzero. -/
def get_value_differences (bd nd : List (Option ℚ)) : ValueDiffReport :=
  let mask := maskMismatchFlag bd nd
  if values_differ bd nd then
    { mask_line := mask,
      abs_line := some (maxAbsDiff bd nd),
      rel_line :=
        if baselineAnyNonzero bd then some (maxAbsDiff bd nd / maxAbsBaseline bd)
        else none }
  else
    { mask_line := mask, abs_line := none, rel_line := none }

/-- `parse_results`: the returned fail count (the run verdict / exit status). -/
def parse_results (st : CompState) : Nat :=
  (st.test_results.filter (fun p => ! p.2.pass)).length

/-- The `__main__` driver after a successful load: the four stages in order. -/
def runPipeline (b n : Dataset) (q : Bool) : CompState :=
  compare_values (compare_metadata (compare_variable_type_and_dims
    (compare_variable_names (initState b n q))))

/-- `sys.exit(err_cnt)`: the process exit status of a run. -/
def runVerdict (b n : Dataset) (q : Bool) : Nat :=
  parse_results (runPipeline b n q)

/-! ### Concrete datasets used as witnesses and counterexamples

Scenario A (spec §8): baseline variables `temp, salt`; new adds `depth`.
Scenario B: `temp` changes dtype, `salt` matches.
Scenario D: `salt` equal except one missing value present only in `new`.
`dX`/`dY`: datasets sharing no variable names. -/

def fVar (d : List (Option ℚ)) : Var :=
  { dtype := "float64", dims := ["x"], shape := [d.length], attrs := [], data := d }

def dA_base : Dataset := ⟨[("temp", fVar [some 1]), ("salt", fVar [some 2])]⟩
def dA_new : Dataset :=
  ⟨[("temp", fVar [some 1]), ("salt", fVar [some 2]),
    ("depth", fVar [some 3])]⟩

def tempB32 : Var := { fVar [some 1] with dtype := "float32" }
def dB_base : Dataset := ⟨[("temp", tempB32), ("salt", fVar [some 2])]⟩
def dB_new : Dataset := ⟨[("temp", fVar [some 1]), ("salt", fVar [some 2])]⟩

def saltB : Var := fVar [some 1, some 2, some 3]
def saltN : Var := fVar [some 1, none, some 3]
def dD_base : Dataset := ⟨[("salt", saltB)]⟩
def dD_new : Dataset := ⟨[("salt", saltN)]⟩

def dX : Dataset := ⟨[("alpha", fVar [some 1])]⟩
def dY : Dataset := ⟨[("beta", fVar [some 1])]⟩

/-- A pair of variables equal except for one renamed dimension of equal size. -/
def dimXVar : Var := { dtype := "float64", dims := ["x", "y"], shape := [2, 3],
                       attrs := [], data := [] }
def dimZVar : Var := { dimXVar with dims := ["x", "z"] }
def dC_base : Dataset := ⟨[("grid", dimXVar)]⟩
def dC_new : Dataset := ⟨[("grid", dimZVar)]⟩

/-! ### Basic lemmas about the stage functions -/

/-- A skipped Stage 1 leaves the state untouched. -/
theorem stage1_skip {st : CompState} (h : st.common_vars = []) :
    compare_variable_names st = st := by
  simp [compare_variable_names, h]

/-- A skipped Stage 2 leaves the state untouched. -/
theorem stage2_skip {st : CompState} (h : st.common_vars = []) :
    compare_variable_type_and_dims st = st := by
  simp [compare_variable_type_and_dims, h]

/-- A skipped Stage 3 leaves the state untouched. -/
theorem stage3_skip {st : CompState} (h : st.common_vars = []) :
    compare_metadata st = st := by
  simp [compare_metadata, h]

/-- A skipped Stage 4 leaves the state untouched. -/
theorem stage4_skip {st : CompState} (h : st.common_vars = []) :
    compare_values st = st := by
  simp [compare_values, h]

/-- Stage 1 never modifies the working set. -/
theorem stage1_common (st : CompState) :
    (compare_variable_names st).common_vars = st.common_vars := by
  unfold compare_variable_names
  split
  · rfl
  · split <;> rfl

/-- Stage 3 never modifies the working set. -/
theorem stage3_common (st : CompState) :
    (compare_metadata st).common_vars = st.common_vars := by
  unfold compare_metadata
  split
  · rfl
  · dsimp only
    split <;> rfl

/-- Stage 4 never modifies the working set. -/
theorem stage4_common (st : CompState) :
    (compare_values st).common_vars = st.common_vars := by
  unfold compare_values
  split
  · rfl
  · dsimp only
    split <;> rfl

/-- Elements surviving a fold of `List.erase` were in the original list. -/
theorem mem_of_mem_foldl_erase {r l : List String} {x : String}
    (h : x ∈ r.foldl (fun acc v => acc.erase v) l) : x ∈ l := by
  induction r generalizing l with
  | nil => exact h
  | cons a t ih => exact List.mem_of_mem_erase (ih h)

/-- Stage 2 only ever shrinks the working set. -/
theorem stage2_common_subset {st : CompState} {v : String}
    (h : v ∈ (compare_variable_type_and_dims st).common_vars) : v ∈ st.common_vars := by
  unfold compare_variable_type_and_dims at h
  split at h
  · exact h
  · dsimp only at h
    split at h
    · exact h
    · exact mem_of_mem_foldl_erase h

/-! ### Association-list (python dict) lemmas -/

/-- In a duplicate-key-free association list, every entry is found by `lookup`
of its own key. -/
theorem lookup_self {β : Type} {l : List (String × β)}
    (h : (l.map Prod.fst).Nodup) : ∀ p ∈ l, l.lookup p.1 = some p.2 := by
  induction l with
  | nil => intro p hp; cases hp
  | cons a t ih =>
    intro p hp
    rcases List.mem_cons.mp hp with hp1 | hp2
    · subst hp1
      simp [List.lookup]
    · have hne : (p.1 == a.1) = false := beq_eq_false_iff_ne.mpr (by
        intro hq
        exact (List.nodup_cons.mp h).1 (hq ▸ List.mem_map_of_mem Prod.fst hp2))
      simp only [List.lookup, hne]
      exact ih (List.nodup_cons.mp h).2 p hp2

/-- `lookup` finds only entries of the list. -/
theorem mem_of_lookup_eq_some {β : Type} {l : List (String × β)} {k : String} {v : β}
    (h : l.lookup k = some v) : (k, v) ∈ l := by
  induction l with
  | nil => cases h
  | cons a t ih =>
    by_cases hk : k = a.1
    · have hb : (k == a.1) = true := beq_iff_eq.mpr hk
      simp only [List.lookup, hb, Option.some.injEq] at h
      subst hk
      subst h
      exact List.mem_cons.mpr (Or.inl rfl)
    · have hb : (k == a.1) = false := beq_eq_false_iff_ne.mpr hk
      simp only [List.lookup, hb] at h
      exact List.mem_cons_of_mem _ (ih h)

/-- `lookup` misses keys absent from the key list. -/
theorem lookup_eq_none_of_not_mem {β : Type} {l : List (String × β)} {k : String}
    (h : k ∉ l.map Prod.fst) : l.lookup k = none := by
  induction l with
  | nil => rfl
  | cons a t ih =>
    have hk : (k == a.1) = false := beq_eq_false_iff_ne.mpr
      (fun hq => h (hq ▸ List.mem_map_of_mem Prod.fst (List.mem_cons_self a t)))
    have ht : k ∉ t.map Prod.fst := fun hm => h (List.mem_cons_of_mem _ hm)
    simp only [List.lookup, hk]
    exact ih ht

/-- Python dict equality is reflexive on duplicate-key-free mappings. -/
theorem dictEq_refl {β : Type} [DecidableEq β] {l : List (String × β)}
    (h : (l.map Prod.fst).Nodup) : dictEq l l = true := by
  have hall : l.all (fun p => decide (l.lookup p.1 = some p.2)) = true :=
    List.all_eq_true.mpr (fun p hp => decide_eq_true (lookup_self h p hp))
  simp [dictEq, List.all_eq_true] at hall ⊢
  exact fun p hp => hall p hp

/-- The keys of a zip are an initial part of the first list. -/
theorem map_fst_zip_sublist {α β : Type} (l1 : List α) (l2 : List β) :
    ((l1.zip l2).map Prod.fst).Sublist l1 := by
  induction l1 generalizing l2 with
  | nil => simp
  | cons a t ih =>
    cases l2 with
    | nil => simp
    | cons b s => simpa using List.Sublist.cons₂ a (ih s)

/-- A variable never mismatches itself at Stage 2 (its dimension names are
unique, so its `.sizes` dict equals itself). -/
theorem tdMismatch_self {v : Var} (h : v.dims.Nodup) : tdMismatch v v = none := by
  have hkeys : (v.sizesMap.map Prod.fst).Nodup := by
    have hsub : (v.sizesMap.map Prod.fst).Sublist v.dims :=
      map_fst_zip_sublist v.dims v.shape
    exact List.Nodup.sublist hsub h
  simp [tdMismatch, dictEq_refl hkeys]

/-- xarray `equals` is reflexive. -/
theorem varEquals_self (v : Var) : varEquals v v = true := by
  simp [varEquals]

/-! ### One Test Result per executed stage -/

/-- The run verdict is zero exactly when every recorded Test Result passed. -/
theorem parse_results_eq_zero {st : CompState} :
    parse_results st = 0 ↔ ∀ p ∈ st.test_results, p.2.pass = true := by
  simp [parse_results, List.length_eq_zero, List.filter_eq_nil]

/-- A passing Stage 1 run appends exactly one passing Test Result. -/
theorem stage1_run_pass (st : CompState) (h : st.common_vars ≠ [])
    (hc : st.baseline.varNames.length = st.new_file.varNames.length ∧
      st.baseline.varNames.length = st.common_vars.length) :
    ∃ r : TestResult,
      (compare_variable_names st).test_results = st.test_results ++ [(stage1Desc, r)] ∧
      r.pass = true := by
  unfold compare_variable_names
  rw [if_neg h, if_pos hc]
  exact ⟨_, rfl, rfl⟩

/-- A failing Stage 1 run appends exactly one failing Test Result whose terse
message counts the common variables against common plus one-sided ones. -/
theorem stage1_run_fail (st : CompState) (h : st.common_vars ≠ [])
    (hc : ¬(st.baseline.varNames.length = st.new_file.varNames.length ∧
      st.baseline.varNames.length = st.common_vars.length)) :
    ∃ r : TestResult,
      (compare_variable_names st).test_results = st.test_results ++ [(stage1Desc, r)] ∧
      r.pass = false ∧
      r.fail_msg = some (fracMsg st.common_vars.length (st.common_vars.length +
        ((st.baseline.varNames.filter (fun v => v ∉ st.common_vars)).length +
         (st.new_file.varNames.filter (fun v => v ∉ st.common_vars)).length))) := by
  unfold compare_variable_names
  rw [if_neg h, if_neg hc]
  exact ⟨_, rfl, rfl, rfl⟩

/-- Running Stage 2 on a nonempty working set appends exactly one Test Result
that passes exactly when no common variable mismatches. -/
theorem stage2_run (st : CompState) (h : st.common_vars ≠ []) :
    ∃ r : TestResult,
      (compare_variable_type_and_dims st).test_results =
        st.test_results ++ [(stage2Desc, r)] ∧
      (r.pass = true ↔ ∀ v ∈ st.common_vars,
        tdMismatch (st.baseline.getVar v) (st.new_file.getVar v) = none) := by
  unfold compare_variable_type_and_dims
  rw [if_neg h]
  dsimp only
  split
  case isTrue hr =>
    refine ⟨_, rfl, ?_⟩
    simp only [true_iff]
    rw [List.filter_eq_nil] at hr
    intro v hv
    have := hr v hv
    simpa [Option.not_isSome_iff_eq_none] using this
  case isFalse hr =>
    refine ⟨_, rfl, ?_⟩
    constructor
    · intro hc; exact absurd hc (by simp)
    · intro hall
      exact absurd (List.filter_eq_nil.mpr (fun v hv => by simp [hall v hv])) hr

/-- Running Stage 3 on a nonempty working set appends exactly one Test Result
that passes exactly when every common variable's attribute dicts are equal. -/
theorem stage3_run (st : CompState) (h : st.common_vars ≠ []) :
    ∃ r : TestResult,
      (compare_metadata st).test_results = st.test_results ++ [(stage3Desc, r)] ∧
      (r.pass = true ↔ ∀ v ∈ st.common_vars,
        dictEq (st.baseline.getVar v).attrs (st.new_file.getVar v).attrs = true) := by
  unfold compare_metadata
  rw [if_neg h]
  dsimp only
  split
  case isTrue hf =>
    refine ⟨_, rfl, ?_⟩
    constructor
    · intro hc; exact absurd hc (by simp)
    · intro hall
      apply absurd _ hf
      rw [List.length_eq_zero, List.filter_eq_nil]
      intro v hv
      simp [hall v hv]
  case isFalse hf =>
    refine ⟨_, rfl, ?_⟩
    simp only [true_iff]
    rw [Decidable.not_not, List.length_eq_zero, List.filter_eq_nil] at hf
    intro v hv
    have := hf v hv
    simpa using this

/-- Running Stage 4 on a nonempty working set appends exactly one Test Result
that passes exactly when every common variable satisfies xarray `equals`. -/
theorem stage4_run (st : CompState) (h : st.common_vars ≠ []) :
    ∃ r : TestResult,
      (compare_values st).test_results = st.test_results ++ [(stage4Desc, r)] ∧
      (r.pass = true ↔ ∀ v ∈ st.common_vars,
        varEquals (st.baseline.getVar v) (st.new_file.getVar v) = true) := by
  unfold compare_values
  rw [if_neg h]
  dsimp only
  split
  case isTrue hf =>
    refine ⟨_, rfl, ?_⟩
    constructor
    · intro hc; exact absurd hc (by simp)
    · intro hall
      apply absurd _ hf
      rw [List.length_eq_zero, List.filter_eq_nil]
      intro v hv
      simp [hall v hv]
  case isFalse hf =>
    refine ⟨_, rfl, ?_⟩
    simp only [true_iff]
    rw [Decidable.not_not, List.length_eq_zero, List.filter_eq_nil] at hf
    intro v hv
    have := hf v hv
    simpa using this

/-- After Stage 2 the working set is exactly the matching common variables. -/
theorem stage2_common_eq (st : CompState) (hnd : st.common_vars.Nodup) :
    (compare_variable_type_and_dims st).common_vars =
      st.common_vars.filter
        (fun v => tdMismatch (st.baseline.getVar v) (st.new_file.getVar v) = none) := by
  by_cases h : st.common_vars = []
  · rw [stage2_skip h, h]
    rfl
  · unfold compare_variable_type_and_dims
    rw [if_neg h]
    dsimp only
    split
    · rename_i hr
      rw [List.filter_eq_nil] at hr
      symm
      rw [List.filter_eq_self]
      intro v hv
      have := hr v hv
      simpa [Option.not_isSome_iff_eq_none] using this
    · rename_i hr
      rw [← List.diff_eq_foldl, List.Nodup.diff_eq_filter hnd]
      apply List.filter_congr
      intro v hv
      by_cases hm : tdMismatch (st.baseline.getVar v) (st.new_file.getVar v) = none
      · simp [hm, List.mem_filter, hv]
      · simp [hm, List.mem_filter, hv, Option.isSome_iff_ne_none]

/-! ### NaN-index lemmas for the mask check -/

/-- The NaN-position list is duplicate-free. -/
theorem nanIdx_nodup (xs : List (Option ℚ)) : (nanIdx xs).Nodup :=
  (List.nodup_range _).filter _

/-- The NaN-position list is strictly increasing. -/
theorem nanIdx_sorted (xs : List (Option ℚ)) : List.Sorted (· < ·) (nanIdx xs) :=
  List.Pairwise.filter _ (List.sorted_lt_range _)

/-! ### Claim theorems -/

/-- C1 (counterexample): in scenario D — `salt` equal to baseline except one
missing value present only in `new` — the jointly-non-missing values are all
equal (`values_differ = false`) and the NaN positions differ, yet Stage 4
records a FAILING Test Result: pass/fail is not decided from `values_differ`
alone and a pure mask mismatch does not leave the stage PASS. -/
theorem C1_counterexample :
    values_differ saltB.data saltN.data = false ∧
    nanIdx saltB.data ≠ nanIdx saltN.data ∧
    ((runPipeline dD_base dD_new false).test_results.lookup stage4Desc).map TestResult.pass
      = some false := by decide

/-- C1 (amended): Stage 4 decides pass/fail per variable by xarray `equals`
(exact equality of dims, shape, and values with NaNs at identical positions
comparing equal): the stage's Test Result passes exactly when every common
variable's baseline and new arrays are equal in that sense, so a variable
whose NaN positions differ counts as a Stage 4 failure even when all
jointly-non-missing values agree; the working set is unchanged. -/
theorem C1_amended (st : CompState) (h : st.common_vars ≠ []) :
    ∃ r : TestResult,
      (compare_values st).test_results = st.test_results ++ [(stage4Desc, r)] ∧
      (compare_values st).common_vars = st.common_vars ∧
      (r.pass = true ↔ ∀ v ∈ st.common_vars,
        varEquals (st.baseline.getVar v) (st.new_file.getVar v) = true) := by
  obtain ⟨r, hres, hiff⟩ := stage4_run st h
  exact ⟨r, hres, stage4_common st, hiff⟩

/-- C1 (witness): the amended Stage 4 characterisation applied to the concrete
scenario-D state. -/
theorem C1_witness :
    (initState dD_base dD_new false).common_vars ≠ [] ∧
    ∃ r : TestResult,
      (compare_values (initState dD_base dD_new false)).test_results =
        (initState dD_base dD_new false).test_results ++ [(stage4Desc, r)] ∧
      (compare_values (initState dD_base dD_new false)).common_vars =
        (initState dD_base dD_new false).common_vars ∧
      (r.pass = true ↔ ∀ v ∈ (initState dD_base dD_new false).common_vars,
        varEquals ((initState dD_base dD_new false).baseline.getVar v)
          ((initState dD_base dD_new false).new_file.getVar v) = true) :=
  ⟨by decide, C1_amended _ (by decide)⟩

/-- C2 (code evaluated at the failing input): both datasets are nonempty and
loaded, they share no variable name, and the run records NO Test Result at all
— Stage 1 included — and exits 0.  This contradicts the claim (and the
script's own stated purpose of flagging variables that appear in only one
file): Stage 1's empty-working-set guard skips it instead of failing. -/
theorem C2_code_eval :
    dX.varNames ≠ [] ∧ dY.varNames ≠ [] ∧
    (runPipeline dX dY false).test_results = [] ∧ runVerdict dX dY false = 0 := by
  decide

/-- C3 (counterexample): baseline `[1, 2]` has no NaN and new `[NaN, 2]` has
one, so the NaN-position sets differ, yet the mask check compares the empty
`argwhere` array against a one-row array — an empty broadcast — and reports
`mask_mismatch = false`: the flag is NOT true exactly when the NaN-position
sets differ. -/
theorem C3_counterexample :
    nanIdx ([some 1, some 2] : List (Option ℚ)) ≠ nanIdx [none, some 2] ∧
    maskMismatchFlag [some 1, some 2] [none, some 2] = some false := by
  decide

/-- C3 (amended): for arrays with equally many NaN positions the mask
comparison is well-defined and `mask_mismatch` is true exactly when the set of
NaN positions differs; with differing NaN counts the check can miss a mismatch
(0 NaNs against 1) or fail to broadcast at all. -/
theorem C3_amended (bd nd : List (Option ℚ))
    (h : (nanIdx bd).length = (nanIdx nd).length) :
    maskMismatchFlag bd nd =
      some (decide ((nanIdx bd).toFinset ≠ (nanIdx nd).toFinset)) := by
  unfold maskMismatchFlag bcastAnyNe
  rw [if_pos h]
  congr 1
  rw [decide_eq_decide]
  apply not_congr
  constructor
  · intro he
    rw [he]
  · intro hf
    have hperm := List.perm_of_nodup_nodup_toFinset_eq (nanIdx_nodup bd) (nanIdx_nodup nd) hf
    haveI : IsAntisymm ℕ (· < ·) := ⟨fun a b h1 h2 => absurd h2 (Nat.lt_asymm h1)⟩
    exact List.eq_of_perm_of_sorted hperm (nanIdx_sorted bd) (nanIdx_sorted nd)

/-- C3 (witness): the amended mask characterisation applied to two concrete
arrays with one NaN each at different positions. -/
theorem C3_witness :
    (nanIdx ([none, some 1] : List (Option ℚ))).length =
      (nanIdx ([some 1, none] : List (Option ℚ))).length ∧
    maskMismatchFlag [none, some 1] [some 1, none] =
      some (decide ((nanIdx ([none, some 1] : List (Option ℚ))).toFinset ≠
        (nanIdx ([some 1, none] : List (Option ℚ))).toFinset)) :=
  ⟨by decide, C3_amended _ _ (by decide)⟩

/-- C7: the relative-difference line is reported, with value
`max_abs_diff / max |unmasked baseline|`, if and only if the jointly-unmasked
values differ AND some unmasked baseline value is nonzero; when every unmasked
baseline value is zero the relative line is simply absent (no division is
attempted) while the absolute line is still reported whenever values differ. -/
theorem C7_rel_diff (bd nd : List (Option ℚ)) :
    ((get_value_differences bd nd).rel_line =
       if values_differ bd nd = true ∧ baselineAnyNonzero bd = true
       then some (maxAbsDiff bd nd / maxAbsBaseline bd)
       else none) ∧
    ((get_value_differences bd nd).abs_line =
       if values_differ bd nd = true then some (maxAbsDiff bd nd) else none) := by
  unfold get_value_differences
  by_cases hv : values_differ bd nd = true
  · by_cases hz : baselineAnyNonzero bd = true
    · simp [hv, hz]
    · simp [hv, hz]
  · simp [hv]

/-- C9: when the two datasets share no variable name, every stage — Stage 1
included — skips, no Test Result is created, `parse_results` returns 0 and the
process exit status is 0: disjoint datasets compare as a complete success. -/
theorem C9_disjoint (b n : Dataset) (q : Bool)
    (h : ∀ v ∈ b.varNames, v ∉ n.varNames) :
    (runPipeline b n q).test_results = [] ∧ runVerdict b n q = 0 := by
  have hc : (initState b n q).common_vars = [] := by
    simp only [initState]
    rw [List.filter_eq_nil]
    intro v hv
    simp [h v hv]
  have hrun : runPipeline b n q = initState b n q := by
    unfold runPipeline
    rw [stage1_skip hc, stage2_skip hc, stage3_skip hc, stage4_skip hc]
  refine ⟨by rw [hrun]; rfl, ?_⟩
  unfold runVerdict
  rw [hrun]
  rfl

/-- Stage 1 never touches the two dataset views. -/
theorem stage1_ds (st : CompState) :
    (compare_variable_names st).baseline = st.baseline ∧
    (compare_variable_names st).new_file = st.new_file := by
  unfold compare_variable_names
  split
  · exact ⟨rfl, rfl⟩
  · split <;> exact ⟨rfl, rfl⟩

/-- Stage 2 never touches the two dataset views. -/
theorem stage2_ds (st : CompState) :
    (compare_variable_type_and_dims st).baseline = st.baseline ∧
    (compare_variable_type_and_dims st).new_file = st.new_file := by
  unfold compare_variable_type_and_dims
  split
  · exact ⟨rfl, rfl⟩
  · dsimp only
    split <;> exact ⟨rfl, rfl⟩

/-- Stage 3 never touches the two dataset views. -/
theorem stage3_ds (st : CompState) :
    (compare_metadata st).baseline = st.baseline ∧
    (compare_metadata st).new_file = st.new_file := by
  unfold compare_metadata
  split
  · exact ⟨rfl, rfl⟩
  · dsimp only
    split <;> exact ⟨rfl, rfl⟩

/-- C4: the working set starts as exactly the intersection of the two
variable-name sets; Stage 1 leaves it unchanged, Stage 2 only removes names,
Stages 3 and 4 leave it unchanged, and a name absent after Stage 2 is absent
from the sets Stages 3 and 4 iterate. -/
theorem C4_working_set (b n : Dataset) (q : Bool) :
    (∀ v, v ∈ (initState b n q).common_vars ↔ v ∈ b.varNames ∧ v ∈ n.varNames) ∧
    (compare_variable_names (initState b n q)).common_vars =
      (initState b n q).common_vars ∧
    (∀ v, v ∈ (compare_variable_type_and_dims (compare_variable_names
        (initState b n q))).common_vars →
      v ∈ (compare_variable_names (initState b n q)).common_vars) ∧
    (compare_metadata (compare_variable_type_and_dims (compare_variable_names
        (initState b n q)))).common_vars =
      (compare_variable_type_and_dims (compare_variable_names
        (initState b n q))).common_vars ∧
    (compare_values (compare_metadata (compare_variable_type_and_dims
        (compare_variable_names (initState b n q))))).common_vars =
      (compare_metadata (compare_variable_type_and_dims (compare_variable_names
        (initState b n q)))).common_vars ∧
    (∀ v, v ∈ (compare_variable_names (initState b n q)).common_vars →
      v ∉ (compare_variable_type_and_dims (compare_variable_names
        (initState b n q))).common_vars →
      (v ∉ (compare_metadata (compare_variable_type_and_dims (compare_variable_names
        (initState b n q)))).common_vars ∧
       v ∉ (compare_values (compare_metadata (compare_variable_type_and_dims
        (compare_variable_names (initState b n q))))).common_vars)) := by
  refine ⟨?_, stage1_common _, fun v hv => stage2_common_subset hv,
    stage3_common _, stage4_common _, ?_⟩
  · intro v
    simp [initState, List.mem_filter]
  · intro v _ hv2
    rw [stage4_common, stage3_common]
    exact ⟨hv2, hv2⟩

/-- C4 (witness): in scenario B, `temp` (disqualified at Stage 2 for its
dtype) is absent from the working sets Stages 3 and 4 iterate. -/
theorem C4_witness :
    ("temp" ∈ (compare_variable_names (initState dB_base dB_new false)).common_vars ∧
     "temp" ∉ (compare_variable_type_and_dims (compare_variable_names
        (initState dB_base dB_new false))).common_vars) ∧
    ("temp" ∉ (compare_metadata (compare_variable_type_and_dims (compare_variable_names
        (initState dB_base dB_new false)))).common_vars ∧
     "temp" ∉ (compare_values (compare_metadata (compare_variable_type_and_dims
        (compare_variable_names (initState dB_base dB_new false))))).common_vars) :=
  ⟨⟨by decide, by decide⟩,
   (C4_working_set dB_base dB_new false).2.2.2.2.2 "temp" (by decide) (by decide)⟩

/-- C5: Stage 2 tests dtype first, then dimension count, then the sizes
mapping, short-circuiting at the first mismatch; every mismatching variable is
removed from the working set (which becomes exactly the matching variables)
and the stage's Test Result passes exactly when no variable mismatches. -/
theorem C5_stage2 :
    (∀ bv nv : Var, bv.dtype ≠ nv.dtype → tdMismatch bv nv = some TDMismatch.dtype) ∧
    (∀ bv nv : Var, bv.dtype = nv.dtype → bv.ndim ≠ nv.ndim →
      tdMismatch bv nv = some TDMismatch.ndim) ∧
    (∀ bv nv : Var, bv.dtype = nv.dtype → bv.ndim = nv.ndim →
      tdMismatch bv nv =
        if dictEq bv.sizesMap nv.sizesMap then none else some TDMismatch.sizes) ∧
    (∀ st : CompState, st.common_vars ≠ [] → st.common_vars.Nodup →
      (compare_variable_type_and_dims st).common_vars =
        st.common_vars.filter (fun v =>
          tdMismatch (st.baseline.getVar v) (st.new_file.getVar v) = none) ∧
      ∃ r : TestResult,
        (compare_variable_type_and_dims st).test_results =
          st.test_results ++ [(stage2Desc, r)] ∧
        (r.pass = true ↔ ∀ v ∈ st.common_vars,
          tdMismatch (st.baseline.getVar v) (st.new_file.getVar v) = none)) := by
  refine ⟨?_, ?_, ?_, ?_⟩
  · intro bv nv h
    simp [tdMismatch, h]
  · intro bv nv h1 h2
    simp [tdMismatch, h1, h2]
  · intro bv nv h1 h2
    simp [tdMismatch, h1, h2]
  · intro st h hnd
    exact ⟨stage2_common_eq st hnd, stage2_run st h⟩

/-- C5 (witness): the Stage 2 characterisation applied to scenario B, where
`temp` differs in dtype. -/
theorem C5_witness :
    tdMismatch tempB32 (fVar [some 1]) = some TDMismatch.dtype ∧
    ((compare_variable_type_and_dims (initState dB_base dB_new false)).common_vars =
      (initState dB_base dB_new false).common_vars.filter (fun v =>
        tdMismatch ((initState dB_base dB_new false).baseline.getVar v)
          ((initState dB_base dB_new false).new_file.getVar v) = none) ∧
     ∃ r : TestResult,
       (compare_variable_type_and_dims (initState dB_base dB_new false)).test_results =
         (initState dB_base dB_new false).test_results ++ [(stage2Desc, r)] ∧
       (r.pass = true ↔ ∀ v ∈ (initState dB_base dB_new false).common_vars,
         tdMismatch ((initState dB_base dB_new false).baseline.getVar v)
           ((initState dB_base dB_new false).new_file.getVar v) = none)) :=
  ⟨C5_stage2.1 tempB32 (fVar [some 1]) (by decide),
   C5_stage2.2.2.2 (initState dB_base dB_new false) (by decide) (by decide)⟩

/-- C6: when Stage 1 fails, the terse message is
`"<matched>/<total>" ++ " pass"` with `matched` the cardinality of the
intersection and `total` the cardinality of the union of the two
variable-name sets; the working set is the intersection. -/
theorem C6_stage1_fail (b n : Dataset) (q : Bool)
    (hb : b.varNames.Nodup) (hn : n.varNames.Nodup)
    (hne : (initState b n q).common_vars ≠ [])
    (hfail : ¬(b.varNames.length = n.varNames.length ∧
      b.varNames.length = (initState b n q).common_vars.length)) :
    ∃ r : TestResult,
      (compare_variable_names (initState b n q)).test_results = [(stage1Desc, r)] ∧
      r.pass = false ∧
      (initState b n q).common_vars.length =
        (b.varNames.toFinset ∩ n.varNames.toFinset).card ∧
      r.fail_msg = some (fracMsg
        ((b.varNames.toFinset ∩ n.varNames.toFinset).card)
        ((b.varNames.toFinset ∪ n.varNames.toFinset).card)) ∧
      (compare_variable_names (initState b n q)).common_vars =
        b.varNames.filter (fun v => v ∈ n.varNames) := by
  have hC : (initState b n q).common_vars = b.varNames.filter (fun v => v ∈ n.varNames) := rfl
  have hCnd : (initState b n q).common_vars.Nodup := by
    rw [hC]
    exact hb.filter _
  -- matched = |B ∩ N|
  have hsucc : (initState b n q).common_vars.length =
      (b.varNames.toFinset ∩ n.varNames.toFinset).card := by
    rw [← List.toFinset_card_of_nodup hCnd, hC, List.toFinset_filter]
    congr 1
    rw [← Finset.filter_mem_eq_inter]
    apply Finset.filter_congr
    intro x _
    simp [List.mem_toFinset]
  -- baseline-only / new-only filters against the common list reduce to
  -- filters against the other name list
  have hBonly : b.varNames.filter (fun v => v ∉ (initState b n q).common_vars) =
      b.varNames.filter (fun v => v ∉ n.varNames) := by
    apply List.filter_congr
    intro x hx
    simp [hC, List.mem_filter, hx]
  have hNonly : n.varNames.filter (fun v => v ∉ (initState b n q).common_vars) =
      n.varNames.filter (fun v => v ∉ b.varNames) := by
    apply List.filter_congr
    intro x hx
    simp [hC, List.mem_filter, hx]
  -- |B| = |B ∩ N| + |B \ N|
  have hBsplit : b.varNames.length = (initState b n q).common_vars.length +
      (b.varNames.filter (fun v => v ∉ n.varNames)).length := by
    have hpart := List.length_eq_length_filter_add (l := b.varNames)
      (fun v => decide (v ∈ n.varNames))
    have heq : b.varNames.filter (fun x => !decide (x ∈ n.varNames)) =
        b.varNames.filter (fun v => v ∉ n.varNames) := by
      apply List.filter_congr
      intro x _
      simp
    rw [hC, ← heq]
    exact hpart
  -- |B ∪ N| = |B| + |N \ B|
  have hUnion : (b.varNames.toFinset ∪ n.varNames.toFinset).card =
      b.varNames.length + (n.varNames.filter (fun v => v ∉ b.varNames)).length := by
    have h3 : (n.varNames.filter (fun v => v ∉ b.varNames)).toFinset =
        n.varNames.toFinset \ b.varNames.toFinset := by
      rw [List.toFinset_filter, Finset.sdiff_eq_filter]
      apply Finset.filter_congr
      intro x _
      simp [List.mem_toFinset]
    have h4 : (n.varNames.filter (fun v => v ∉ b.varNames)).Nodup := hn.filter _
    rw [Finset.union_comm, ← Finset.card_sdiff_add_card, ← h3,
      List.toFinset_card_of_nodup h4, List.toFinset_card_of_nodup hb]
    omega
  obtain ⟨r, hres, hp, hmsg⟩ := stage1_run_fail (initState b n q) hne hfail
  refine ⟨r, by rw [hres]; rfl, hp, hsucc, ?_, by rw [stage1_common]; exact hC⟩
  have hbase : (initState b n q).baseline = b := rfl
  have hnew : (initState b n q).new_file = n := rfl
  have htot : (initState b n q).common_vars.length +
      ((b.varNames.filter (fun v => v ∉ n.varNames)).length +
       (n.varNames.filter (fun v => v ∉ b.varNames)).length) =
      (b.varNames.toFinset ∪ n.varNames.toFinset).card := by
    rw [hUnion]
    omega
  rw [hmsg, hbase, hnew, hBonly, hNonly, htot, hsucc]

/-- C6 (witness): scenario A — baseline `temp, salt` versus new
`temp, salt, depth` — fails Stage 1 with terse message `"2/3 pass"` and
working set `temp, salt`. -/
theorem C6_witness :
    (fracMsg ((dA_base.varNames.toFinset ∩ dA_new.varNames.toFinset).card)
      ((dA_base.varNames.toFinset ∪ dA_new.varNames.toFinset).card) = "2/3 pass" ∧
     dA_base.varNames.filter (fun v => v ∈ dA_new.varNames) = ["temp", "salt"]) ∧
    ∃ r : TestResult,
      (compare_variable_names (initState dA_base dA_new false)).test_results =
        [(stage1Desc, r)] ∧
      r.pass = false ∧
      (initState dA_base dA_new false).common_vars.length =
        (dA_base.varNames.toFinset ∩ dA_new.varNames.toFinset).card ∧
      r.fail_msg = some (fracMsg
        ((dA_base.varNames.toFinset ∩ dA_new.varNames.toFinset).card)
        ((dA_base.varNames.toFinset ∪ dA_new.varNames.toFinset).card)) ∧
      (compare_variable_names (initState dA_base dA_new false)).common_vars =
        dA_base.varNames.filter (fun v => v ∈ dA_new.varNames) :=
  ⟨⟨by decide, by decide⟩,
   C6_stage1_fail dA_base dA_new false (by decide) (by decide) (by decide) (by decide)⟩

/-- C8: comparing a well-formed dataset against itself gives verdict 0 and
every Test Result that was recorded passed. -/
theorem C8_self_compare (A : Dataset) (q : Bool) (h : A.WF) :
    runVerdict A A q = 0 ∧
    ∀ p ∈ (runPipeline A A q).test_results, p.2.pass = true := by
  suffices hall : ∀ p ∈ (runPipeline A A q).test_results, p.2.pass = true by
    exact ⟨parse_results_eq_zero.mpr hall, hall⟩
  have hc0 : (initState A A q).common_vars = A.varNames := by
    simp only [initState]
    rw [List.filter_eq_self]
    intro a ha
    simpa using ha
  by_cases hA : A.varNames = []
  · have hc : (initState A A q).common_vars = [] := by rw [hc0, hA]
    have hrun : runPipeline A A q = initState A A q := by
      unfold runPipeline
      rw [stage1_skip hc, stage2_skip hc, stage3_skip hc, stage4_skip hc]
    rw [hrun]
    intro p hp
    simp [initState] at hp
  · have hvWF : ∀ v, (A.getVar v).dims.Nodup ∧ ((A.getVar v).attrs.map Prod.fst).Nodup := by
      intro v
      unfold Dataset.getVar
      cases hl : A.vars.lookup v with
      | none => exact ⟨List.nodup_nil, List.nodup_nil⟩
      | some w =>
        have hmem := mem_of_lookup_eq_some hl
        have hw := h.2 _ hmem
        exact ⟨hw.1, hw.2.1⟩
    have hb0 : (initState A A q).baseline = A := rfl
    have hn0 : (initState A A q).new_file = A := rfl
    have ht0 : (initState A A q).test_results = [] := rfl
    have hA' : (initState A A q).common_vars ≠ [] := by rw [hc0]; exact hA
    obtain ⟨r1, hres1, hp1⟩ := stage1_run_pass (initState A A q) hA' ⟨rfl, by rw [hc0]; rfl⟩
    have hcom1 := stage1_common (initState A A q)
    have hnod1 : (compare_variable_names (initState A A q)).common_vars.Nodup := by
      rw [hcom1, hc0]
      exact h.1
    have hA1 : (compare_variable_names (initState A A q)).common_vars ≠ [] := by
      rw [hcom1]
      exact hA'
    obtain ⟨r2, hres2, hiff2⟩ := stage2_run _ hA1
    have hp2 : r2.pass = true := hiff2.mpr (fun v _ => by
      rw [(stage1_ds _).1, (stage1_ds _).2, hb0, hn0]
      exact tdMismatch_self (hvWF v).1)
    have hcom2 : (compare_variable_type_and_dims (compare_variable_names
        (initState A A q))).common_vars =
        (compare_variable_names (initState A A q)).common_vars := by
      rw [stage2_common_eq _ hnod1, List.filter_eq_self]
      intro v _
      rw [(stage1_ds _).1, (stage1_ds _).2, hb0, hn0]
      simp [tdMismatch_self (hvWF v).1]
    have hA2 : (compare_variable_type_and_dims (compare_variable_names
        (initState A A q))).common_vars ≠ [] := by
      rw [hcom2]
      exact hA1
    obtain ⟨r3, hres3, hiff3⟩ := stage3_run _ hA2
    have hp3 : r3.pass = true := hiff3.mpr (fun v _ => by
      rw [(stage2_ds _).1, (stage2_ds _).2, (stage1_ds _).1, (stage1_ds _).2, hb0, hn0]
      exact dictEq_refl (hvWF v).2)
    have hA3 : (compare_metadata (compare_variable_type_and_dims (compare_variable_names
        (initState A A q)))).common_vars ≠ [] := by
      rw [stage3_common]
      exact hA2
    obtain ⟨r4, hres4, hiff4⟩ := stage4_run _ hA3
    have hp4 : r4.pass = true := hiff4.mpr (fun v _ => by
      rw [(stage3_ds _).1, (stage3_ds _).2, (stage2_ds _).1, (stage2_ds _).2,
        (stage1_ds _).1, (stage1_ds _).2, hb0, hn0]
      exact varEquals_self _)
    intro p hp
    unfold runPipeline at hp
    rw [hres4, hres3, hres2, hres1, ht0] at hp
    simp only [List.nil_append, List.append_assoc, List.mem_append,
      List.mem_singleton, List.mem_cons, List.not_mem_nil, or_false, false_or] at hp
    rcases hp with rfl | rfl | rfl | rfl
    · exact hp1
    · exact hp2
    · exact hp3
    · exact hp4

/-- C8 (witness): the self-comparison theorem applied to a concrete
one-variable dataset. -/
theorem C8_witness :
    dD_base.WF ∧
    (runVerdict dD_base dD_base false = 0 ∧
     ∀ p ∈ (runPipeline dD_base dD_base false).test_results, p.2.pass = true) := by
  have hwf : dD_base.WF := by
    refine ⟨by decide, fun p hp => ?_⟩
    have hp' : p = ("salt", saltB) := by simpa [dD_base] using hp
    subst hp'
    exact ⟨by decide, by decide, by decide⟩
  exact ⟨hwf, C8_self_compare dD_base false hwf⟩

/-- C10: Stage 2's third check compares the dimension-name → size mappings,
so two variables of equal dtype, equal dimension count (and possibly equal
shape) whose dimension-name sets differ are disqualified and removed from the
working set; the verbose log line for them carries the two *total* element
counts (`.size`), not the per-dimension sizes. -/
theorem C10_dim_names (bv nv : Var)
    (hdt : bv.dtype = nv.dtype) (hnd : bv.ndim = nv.ndim)
    (hlb : bv.dims.length = bv.shape.length)
    (hln : nv.dims.length = nv.shape.length)
    (hdiff : bv.dims.toFinset ≠ nv.dims.toFinset) :
    tdMismatch bv nv = some TDMismatch.sizes ∧
    (∀ st : CompState, st.common_vars.Nodup → ∀ v ∈ st.common_vars,
      st.baseline.getVar v = bv → st.new_file.getVar v = nv →
      (v ∉ (compare_variable_type_and_dims st).common_vars ∧
       S2Line.sizeLine v bv.size nv.size ∈ stage2Log st)) := by
  have hkeysb : bv.sizesMap.map Prod.fst = bv.dims := by
    unfold Var.sizesMap
    exact List.map_fst_zip _ _ (le_of_eq hlb)
  have hkeysn : nv.sizesMap.map Prod.fst = nv.dims := by
    unfold Var.sizesMap
    exact List.map_fst_zip _ _ (le_of_eq hln)
  have hdEq : dictEq bv.sizesMap nv.sizesMap = false := by
    have h1 : ¬∀ a, (a ∈ bv.dims.toFinset ↔ a ∈ nv.dims.toFinset) :=
      fun hall => hdiff (Finset.ext hall)
    push_neg at h1
    obtain ⟨k, hk⟩ := h1
    rcases hk with ⟨hkb0, hkn0⟩ | ⟨hkb0, hkn0⟩
    · have hkb : k ∈ bv.dims := List.mem_toFinset.mp hkb0
      have hkn : k ∉ nv.dims := fun hc => hkn0 (List.mem_toFinset.mpr hc)
      have hk1 : k ∈ bv.sizesMap.map Prod.fst := by rw [hkeysb]; exact hkb
      obtain ⟨p, hp, hpk⟩ := List.mem_map.mp hk1
      have hnone : nv.sizesMap.lookup p.1 = none := by
        apply lookup_eq_none_of_not_mem
        rw [hkeysn, hpk]
        exact hkn
      have hfst : bv.sizesMap.all
          (fun q => decide (nv.sizesMap.lookup q.1 = some q.2)) = false := by
        rw [← Bool.not_eq_true, List.all_eq_true]
        intro hall
        have := hall p hp
        rw [hnone] at this
        simp at this
      unfold dictEq
      rw [hfst, Bool.false_and]
    · have hkb : k ∉ bv.dims := fun hc => hkb0 (List.mem_toFinset.mpr hc)
      have hkn : k ∈ nv.dims := List.mem_toFinset.mp hkn0
      have hk1 : k ∈ nv.sizesMap.map Prod.fst := by rw [hkeysn]; exact hkn
      obtain ⟨p, hp, hpk⟩ := List.mem_map.mp hk1
      have hnone : bv.sizesMap.lookup p.1 = none := by
        apply lookup_eq_none_of_not_mem
        rw [hkeysb, hpk]
        exact hkb
      have hsnd : nv.sizesMap.all
          (fun q => decide (bv.sizesMap.lookup q.1 = some q.2)) = false := by
        rw [← Bool.not_eq_true, List.all_eq_true]
        intro hall
        have := hall p hp
        rw [hnone] at this
        simp at this
      unfold dictEq
      rw [hsnd, Bool.and_false]
  have hmis : tdMismatch bv nv = some TDMismatch.sizes := by
    simp [tdMismatch, hdt, hnd, hdEq]
  refine ⟨hmis, fun st hnod v hv hb hn => ⟨?_, ?_⟩⟩
  · rw [stage2_common_eq st hnod]
    intro hc
    have := (List.mem_filter.mp hc).2
    rw [hb, hn, hmis] at this
    simp at this
  · apply List.mem_filterMap.mpr
    refine ⟨v, hv, ?_⟩
    rw [hb, hn, hmis]

/-- C10 (witness): two concrete variables equal except one dimension renamed
`y` → `z` (same per-axis sizes) are disqualified and the size log line shows
the equal total element counts. -/
theorem C10_witness :
    (dimXVar.dtype = dimZVar.dtype ∧ dimXVar.ndim = dimZVar.ndim ∧
     dimXVar.shape = dimZVar.shape ∧ dimXVar.dims.toFinset ≠ dimZVar.dims.toFinset) ∧
    ("grid" ∉ (compare_variable_type_and_dims (initState dC_base dC_new false)).common_vars ∧
     S2Line.sizeLine "grid" dimXVar.size dimZVar.size ∈
       stage2Log (initState dC_base dC_new false)) :=
  ⟨⟨rfl, rfl, rfl, by decide⟩,
   (C10_dim_names dimXVar dimZVar rfl rfl rfl rfl (by decide)).2
     (initState dC_base dC_new false) (by decide) "grid" (by decide)
     (by decide) (by decide)⟩

/-- C9 (witness): the disjoint-dataset theorem applied to two concrete
one-variable datasets sharing no name. -/
theorem C9_witness :
    (∀ v ∈ dX.varNames, v ∉ dY.varNames) ∧
    (runPipeline dX dY false).test_results = [] ∧ runVerdict dX dY false = 0 :=
  ⟨by decide, C9_disjoint dX dY false (by decide)⟩

end PyNcdiff
